import Mathlib

/-!
A shallow embedding of the virtual CPU in `src/main.cpp` and proofs about it.

The source program decodes fixed-width 32-bit instruction words into a
disassembled textual form (`decodeInstruction`) and, in a separate pass,
executes them against a file of 16 unsigned 32-bit registers
(`executeInstruction`, driven by `execute` over `printAsm`-style loops).

Modelling conventions:
* 32-bit machine words are `Nat` with explicit `% 2^32` where C's fixed-width
  unsigned arithmetic wraps; the bit-field extraction macros are `Nat`
  bitwise operations copied from the `#define`s.
* The register file `uint32_t registers[16]` is a `List Nat` of length 16;
  `registers[i]` reads become `l[i]?` so that the C program's out-of-bounds
  reads (possible only through the low 16 bits `r3_imm`, which the code uses
  as an index without any bounds check) have no defined result (`none`).
* C's `a / b` on unsigned operands is undefined behavior when `b = 0`; the
  code divides without any zero check, so division by zero likewise yields
  `none` (no defined result) rather than any error report.
* `printf("%d\n", registers[r1])` prints the register reinterpreted as a
  signed 32-bit integer (`sint32`); output lines are `String`s.
-/

namespace Cpu

/-- `#define OPCODE_MASK 0xFF000000`. -/
def OPCODE_MASK : Nat := 0xFF000000

/-- `#define R1_MASK 0x00F00000`. -/
def R1_MASK : Nat := 0x00F00000

/-- `#define R2_MASK 0x000F0000`. -/
def R2_MASK : Nat := 0x000F0000

/-- `#define R3IMM_MASK 0x0000FFFF`. -/
def R3IMM_MASK : Nat := 0x0000FFFF

/-- `#define GET_OPCODE(instr) ((instr & OPCODE_MASK) >> 24)`. -/
def GET_OPCODE (instr : Nat) : Nat := (instr &&& OPCODE_MASK) >>> 24

/-- `#define GET_R1(instr) ((instr & R1_MASK) >> 20)`. -/
def GET_R1 (instr : Nat) : Nat := (instr &&& R1_MASK) >>> 20

/-- `#define GET_R2(instr) ((instr & R2_MASK) >> 16)`. -/
def GET_R2 (instr : Nat) : Nat := (instr &&& R2_MASK) >>> 16

/-- `#define GET_R3IMM(instr) (instr & R3IMM_MASK)`. -/
def GET_R3IMM (instr : Nat) : Nat := instr &&& R3IMM_MASK

/-- The decoded-instruction tuple of the spec's codec contract (§4.1): the
four bit-fields extracted by the `GET_*` macros. -/
structure DecodedInstruction where
  opcode : Nat
  r1 : Nat
  r2 : Nat
  r3_or_imm : Nat
deriving DecidableEq

/-- `decode(word)`: bundle of the four field extractions the source performs
at the top of `decodeInstruction` and `executeInstruction`. -/
def decode (word : Nat) : DecodedInstruction :=
  ⟨GET_OPCODE word, GET_R1 word, GET_R2 word, GET_R3IMM word⟩

/-- The disassembler `decodeInstruction` of `src/main.cpp` (lines 41-88):
dispatch on the opcode to one `printf` line; we return the line's text. -/
def decodeInstruction (instr : Nat) : String :=
  let opcode := GET_OPCODE instr
  let r1 := GET_R1 instr
  let r2 := GET_R2 instr
  let r3_imm := GET_R3IMM instr
  if opcode = 0x53 then "WRITE R" ++ toString r1
  else if opcode = 0x54 then "MOV R" ++ toString r1 ++ ", R" ++ toString r2
  else if opcode = 0x55 then "MOVli R" ++ toString r1 ++ ", " ++ toString r3_imm
  else if opcode = 0x56 then "MOVhi R" ++ toString r1 ++ ", " ++ toString r3_imm
  else if opcode = 0x57 then "ADD R" ++ toString r1 ++ ", R" ++ toString r2 ++ ", R" ++ toString r3_imm
  else if opcode = 0x58 then "ADDi R" ++ toString r1 ++ ", R" ++ toString r2 ++ ", " ++ toString r3_imm
  else if opcode = 0x59 then "SUB R" ++ toString r1 ++ ", R" ++ toString r2 ++ ", R" ++ toString r3_imm
  else if opcode = 0x60 then "SUBi R" ++ toString r1 ++ ", R" ++ toString r2 ++ ", " ++ toString r3_imm
  else if opcode = 0x61 then "MUL R" ++ toString r1 ++ ", R" ++ toString r2 ++ ", R" ++ toString r3_imm
  else if opcode = 0x62 then "MULi R" ++ toString r1 ++ ", R" ++ toString r2 ++ ", " ++ toString r3_imm
  else if opcode = 0x63 then "DIV R" ++ toString r1 ++ ", R" ++ toString r2 ++ ", R" ++ toString r3_imm
  else if opcode = 0x64 then "DIVi R" ++ toString r1 ++ ", R" ++ toString r2 ++ ", " ++ toString r3_imm
  else "UNKNOWN INSTRUCTION"

/-- The opcode→mnemonic table of spec §4.2, rendered exactly per its
"operand rendering" column (register indices as `R<n>`, immediates as
decimal integers), on an already-decoded instruction. Written from the
spec's table, to be compared with the source-derived `decodeInstruction`. -/
def specMnemonicLine (d : DecodedInstruction) : String :=
  if d.opcode = 0x53 then "WRITE R" ++ toString d.r1
  else if d.opcode = 0x54 then "MOV R" ++ toString d.r1 ++ ", R" ++ toString d.r2
  else if d.opcode = 0x55 then "MOVli R" ++ toString d.r1 ++ ", " ++ toString d.r3_or_imm
  else if d.opcode = 0x56 then "MOVhi R" ++ toString d.r1 ++ ", " ++ toString d.r3_or_imm
  else if d.opcode = 0x57 then "ADD R" ++ toString d.r1 ++ ", R" ++ toString d.r2 ++ ", R" ++ toString d.r3_or_imm
  else if d.opcode = 0x58 then "ADDi R" ++ toString d.r1 ++ ", R" ++ toString d.r2 ++ ", " ++ toString d.r3_or_imm
  else if d.opcode = 0x59 then "SUB R" ++ toString d.r1 ++ ", R" ++ toString d.r2 ++ ", R" ++ toString d.r3_or_imm
  else if d.opcode = 0x60 then "SUBi R" ++ toString d.r1 ++ ", R" ++ toString d.r2 ++ ", " ++ toString d.r3_or_imm
  else if d.opcode = 0x61 then "MUL R" ++ toString d.r1 ++ ", R" ++ toString d.r2 ++ ", R" ++ toString d.r3_or_imm
  else if d.opcode = 0x62 then "MULi R" ++ toString d.r1 ++ ", R" ++ toString d.r2 ++ ", " ++ toString d.r3_or_imm
  else if d.opcode = 0x63 then "DIV R" ++ toString d.r1 ++ ", R" ++ toString d.r2 ++ ", R" ++ toString d.r3_or_imm
  else if d.opcode = 0x64 then "DIVi R" ++ toString d.r1 ++ ", R" ++ toString d.r2 ++ ", " ++ toString d.r3_or_imm
  else "UNKNOWN INSTRUCTION"

/-- 32-bit wrapping addition (`uint32_t` `+`). -/
def add32 (a b : Nat) : Nat := (a + b) % 4294967296

/-- 32-bit wrapping subtraction (`uint32_t` `-`). -/
def sub32 (a b : Nat) : Nat := (a % 4294967296 + 4294967296 - b % 4294967296) % 4294967296

/-- 32-bit wrapping multiplication (`uint32_t` `*`). -/
def mul32 (a b : Nat) : Nat := (a * b) % 4294967296

/-- Unsigned 32-bit division (`uint32_t` `/`): undefined (no result) when the
divisor is 0, as in C. -/
def div32 (a b : Nat) : Option Nat := if b = 0 then none else some (a / b)

/-- The signed 32-bit (two's-complement) reinterpretation that
`printf("%d\n", registers[r1])` applies to the unsigned register value. -/
def sint32 (v : Nat) : Int :=
  if v % 4294967296 < 2147483648 then ((v % 4294967296 : Nat) : Int)
  else ((v % 4294967296 : Nat) : Int) - 4294967296

/-- `executeInstruction` of `src/main.cpp` (lines 90-137): one switch case
per opcode, mutating the register file and/or printing. Returns the new
register file together with the output lines printed, or `none` where the C
code's behavior is undefined (out-of-bounds `registers[r3_imm]` read, or
division by zero). -/
def executeInstruction (instr : Nat) (registers : List Nat) :
    Option (List Nat × List String) :=
  let opcode := GET_OPCODE instr
  let r1 := GET_R1 instr
  let r2 := GET_R2 instr
  let r3_imm := GET_R3IMM instr
  if opcode = 0x53 then do
    let v ← registers[r1]?
    some (registers, [toString (sint32 v)])
  else if opcode = 0x54 then do
    let v ← registers[r2]?
    some (registers.set r1 v, [])
  else if opcode = 0x55 then
    some (registers.set r1 r3_imm, [])
  else if opcode = 0x56 then
    some (registers.set r1 (r3_imm <<< 16), [])
  else if opcode = 0x57 then do
    let a ← registers[r2]?
    let b ← registers[r3_imm]?
    some (registers.set r1 (add32 a b), [])
  else if opcode = 0x58 then do
    let a ← registers[r2]?
    some (registers.set r1 (add32 a r3_imm), [])
  else if opcode = 0x59 then do
    let a ← registers[r2]?
    let b ← registers[r3_imm]?
    some (registers.set r1 (sub32 a b), [])
  else if opcode = 0x60 then do
    let a ← registers[r2]?
    some (registers.set r1 (sub32 a r3_imm), [])
  else if opcode = 0x61 then do
    let a ← registers[r2]?
    let b ← registers[r3_imm]?
    some (registers.set r1 (mul32 a b), [])
  else if opcode = 0x62 then do
    let a ← registers[r2]?
    some (registers.set r1 (mul32 a r3_imm), [])
  else if opcode = 0x63 then do
    let a ← registers[r2]?
    let b ← registers[r3_imm]?
    let q ← div32 a b
    some (registers.set r1 q, [])
  else if opcode = 0x64 then do
    let a ← registers[r2]?
    let q ← div32 a r3_imm
    some (registers.set r1 q, [])
  else
    some (registers, ["UNKNOWN INSTRUCTION"])

/-- The body of the `printAsm` loop: one disassembled line per word. -/
def printAsmLines : List Nat → List String
  | [] => []
  | w :: rest => decodeInstruction w :: printAsmLines rest

/-- `printAsm` of `src/main.cpp` (lines 141-147): header line, one line per
instruction, trailing blank line. -/
def printAsm (bin : List Nat) : List String :=
  "INSTRUCTIONS:" :: printAsmLines bin ++ [""]

/-- The `execute` loop body: run the instructions in order against the
register file, collecting output lines; `none` as soon as one instruction
has undefined behavior. -/
def runProgram : List Nat → List Nat → Option (List Nat × List String)
  | [], registers => some (registers, [])
  | instr :: rest, registers => do
    let st1 ← executeInstruction instr registers
    let st2 ← runProgram rest st1.1
    some (st2.1, st1.2 ++ st2.2)

/-- `uint32_t registers[16] = {0}`. -/
def initRegisters : List Nat := List.replicate 16 0

/-- The output lines the execution pass prints between its header and its
trailing blank line. -/
def execLines (bin : List Nat) : Option (List String) :=
  (runProgram bin initRegisters).map Prod.snd

/-- `execute` of `src/main.cpp` (lines 149-156): header line, then the
per-instruction output of a run from a zeroed register file, then a blank
line. -/
def execute (bin : List Nat) : Option (List String) :=
  (execLines bin).map (fun ls => "EXECUTION:" :: ls ++ [""])

/-- The 20-word program `BIN` embedded in `main` (lines 159-163). -/
def BIN : List Nat :=
  [0x56000001, 0x53000000, 0x64100100, 0x53100000,
   0x58210010, 0x53200000, 0x60310010, 0x53300000,
   0x57320003, 0x53300000, 0x59230002, 0x53200000,
   0x59330002, 0x53300000, 0x57120003, 0x53100000,
   0x62110010, 0x53100000, 0x63000001, 0x53000000]

/-- The recognized opcodes: the `case` labels of the two switches
(`0x53`-`0x59`, `0x60`-`0x64`; note the gap `0x5A`-`0x5F`). -/
def validOpcodes : List Nat :=
  [0x53, 0x54, 0x55, 0x56, 0x57, 0x58, 0x59, 0x60, 0x61, 0x62, 0x63, 0x64]

/-- Does executing the instruction print a line? Only `WRITE` (`0x53`) and
unrecognized opcodes do. -/
def producesOutput (w : Nat) : Bool :=
  decide (GET_OPCODE w = 0x53 ∨ GET_OPCODE w ∉ validOpcodes)

/-- Masking with a shifted mask and then shifting right is shifting right and
then masking: `(w &&& (m <<< n)) >>> n = (w >>> n) &&& m`. -/
theorem and_shiftLeft_shiftRight (w m n : Nat) :
    (w &&& (m <<< n)) >>> n = (w >>> n) &&& m := by
  apply Nat.eq_of_testBit_eq
  intro i
  simp [Nat.testBit_shiftRight, Nat.testBit_and, Nat.testBit_shiftLeft,
    Nat.le_add_right, Nat.add_sub_cancel_left]

/-- `r1` is a nibble: at most 15. -/
theorem GET_R1_le (w : Nat) : GET_R1 w ≤ 15 := by
  have h : GET_R1 w = (w >>> 20) &&& 0xF := by
    show (w &&& R1_MASK) >>> 20 = _
    rw [show (R1_MASK : Nat) = 0xF <<< 20 from rfl]
    exact and_shiftLeft_shiftRight w 0xF 20
  rw [h]; exact Nat.and_le_right

/-- `r2` is a nibble: at most 15. -/
theorem GET_R2_le (w : Nat) : GET_R2 w ≤ 15 := by
  have h : GET_R2 w = (w >>> 16) &&& 0xF := by
    show (w &&& R2_MASK) >>> 16 = _
    rw [show (R2_MASK : Nat) = 0xF <<< 16 from rfl]
    exact and_shiftLeft_shiftRight w 0xF 16
  rw [h]; exact Nat.and_le_right

/-- On a 16-register file, reading at the (4-bit) `r2` index succeeds. -/
theorem read_r2 (w : Nat) (registers : List Nat) (hlen : registers.length = 16) :
    ∃ a, registers[GET_R2 w]? = some a := by
  have hlt : GET_R2 w < registers.length := by
    have := GET_R2_le w; omega
  exact ⟨registers[GET_R2 w], List.getElem?_eq_getElem hlt⟩

/-- C5: `decode` is total and pure: every 32-bit word yields
`opcode = (word >> 24) & 0xFF` (at most 255), `r1 = (word >> 20) & 0xF` and
`r2 = (word >> 16) & 0xF` (at most 15), and `r3_or_imm = word & 0xFFFF`
(at most 65535); in particular
`decode 0x56000001 = {opcode := 0x56, r1 := 0, r2 := 0, r3_or_imm := 1}`. -/
theorem decode_total_and_correct (word : Nat) :
    (decode word).opcode = (word >>> 24) &&& 0xFF ∧
    (decode word).r1 = (word >>> 20) &&& 0xF ∧
    (decode word).r2 = (word >>> 16) &&& 0xF ∧
    (decode word).r3_or_imm = word &&& 0xFFFF ∧
    (decode word).opcode ≤ 255 ∧
    (decode word).r1 ≤ 15 ∧
    (decode word).r2 ≤ 15 ∧
    (decode word).r3_or_imm ≤ 65535 ∧
    decode 0x56000001 = ⟨0x56, 0, 0, 1⟩ := by
  have hop : GET_OPCODE word = (word >>> 24) &&& 0xFF := by
    show (word &&& OPCODE_MASK) >>> 24 = _
    rw [show (OPCODE_MASK : Nat) = 0xFF <<< 24 from rfl]
    exact and_shiftLeft_shiftRight word 0xFF 24
  have hr1 : GET_R1 word = (word >>> 20) &&& 0xF := by
    show (word &&& R1_MASK) >>> 20 = _
    rw [show (R1_MASK : Nat) = 0xF <<< 20 from rfl]
    exact and_shiftLeft_shiftRight word 0xF 20
  have hr2 : GET_R2 word = (word >>> 16) &&& 0xF := by
    show (word &&& R2_MASK) >>> 16 = _
    rw [show (R2_MASK : Nat) = 0xF <<< 16 from rfl]
    exact and_shiftLeft_shiftRight word 0xF 16
  refine ⟨hop, hr1, hr2, rfl, ?_, ?_, ?_, ?_, by decide⟩
  · show GET_OPCODE word ≤ 255
    rw [hop]; exact Nat.and_le_right
  · show GET_R1 word ≤ 15
    rw [hr1]; exact Nat.and_le_right
  · show GET_R2 word ≤ 15
    rw [hr2]; exact Nat.and_le_right
  · exact Nat.and_le_right

/-- C4: for every instruction word, the disassembler produces exactly the
mnemonic line that the opcode table of spec §4.2 (`specMnemonicLine`)
prescribes for the decoded fields: literal mnemonic strings, `R<n>` register
rendering, decimal immediates, identical separators, and
`UNKNOWN INSTRUCTION` for every opcode outside the table. -/
theorem disassembly_matches_spec_table (w : Nat) :
    decodeInstruction w = specMnemonicLine (decode w) := rfl

/-- C1: executing the 20-word program `BIN` from a freshly zero-initialized
16-register file produces exactly the output lines
65536, 256, 272, 240, 512, 240, 272, 512, 8192, 8 in that order (between the
`EXECUTION:` header and the trailing blank line). -/
theorem full_scenario_output :
    execute BIN =
      some ["EXECUTION:", "65536", "256", "272", "240", "512", "240",
            "272", "512", "8192", "8", ""] := by
  decide

/-- C6: a word whose opcode is not one of the recognized `0x53`-`0x59`,
`0x60`-`0x64` disassembles to `UNKNOWN INSTRUCTION`, and executing it
prints the same line and leaves the register file unchanged. -/
theorem unknown_opcode_behavior (w : Nat) (registers : List Nat)
    (h : GET_OPCODE w ∉ validOpcodes) :
    decodeInstruction w = "UNKNOWN INSTRUCTION" ∧
    executeInstruction w registers = some (registers, ["UNKNOWN INSTRUCTION"]) := by
  simp only [validOpcodes, List.mem_cons, List.not_mem_nil, or_false, not_or] at h
  obtain ⟨h53, h54, h55, h56, h57, h58, h59, h60, h61, h62, h63, h64⟩ := h
  constructor
  · simp [decodeInstruction, h53, h54, h55, h56, h57, h58, h59, h60, h61, h62,
      h63, h64]
  · simp [executeInstruction, h53, h54, h55, h56, h57, h58, h59, h60, h61, h62,
      h63, h64]

/-- Witness for C6 at the concrete word `0x00000000` (opcode `0x00`). -/
theorem unknown_opcode_behavior_w :
    decodeInstruction 0 = "UNKNOWN INSTRUCTION" ∧
    executeInstruction 0 initRegisters = some (initRegisters, ["UNKNOWN INSTRUCTION"]) :=
  unknown_opcode_behavior 0 initRegisters (by decide)

/-- C2 (code finding): the execution engine divides with no zero check
(`registers[r2] / registers[r3_imm]` resp. `/ r3_imm`), so a `DIV` whose
divisor register holds 0, or a `DIVi` whose immediate is 0, has no defined
result at all — the C program performs an unchecked division whose behavior
is undefined (in practice a fatal hardware fault), not a reportable,
recoverable `DivisionByZero` condition. -/
theorem div_by_zero_no_defined_result (w : Nat) (registers : List Nat)
    (hlen : registers.length = 16)
    (h : (GET_OPCODE w = 0x63 ∧ registers[GET_R3IMM w]? = some 0) ∨
         (GET_OPCODE w = 0x64 ∧ GET_R3IMM w = 0)) :
    executeInstruction w registers = none := by
  obtain ⟨a, ha⟩ := read_r2 w registers hlen
  rcases h with ⟨hop, hb⟩ | ⟨hop, himm⟩
  · simp [executeInstruction, hop, ha, hb, div32]
  · simp [executeInstruction, hop, ha, himm, div32]

/-- Witness for C2: `DIVi R1, R0, 0` (word `0x64100000`) on the zeroed
register file. -/
theorem div_by_zero_no_defined_result_w :
    initRegisters.length = 16 ∧
    executeInstruction 0x64100000 initRegisters = none :=
  ⟨by decide, div_by_zero_no_defined_result 0x64100000 initRegisters (by decide)
    (Or.inr ⟨by decide, by decide⟩)⟩

/-- C3 (code finding): for the register-form opcodes `0x57/0x59/0x61/0x63`,
the code indexes `registers[r3_imm]` with no bounds check whatsoever; when
`r3_imm > 15` this is a read beyond the 16-element register file, which has
no defined result (undefined behavior) — there is no explicit check and no
`IndexOutOfRange` condition in the program. -/
theorem oob_register_operand_no_defined_result (w : Nat) (registers : List Nat)
    (hlen : registers.length = 16)
    (hop : GET_OPCODE w ∈ [0x57, 0x59, 0x61, 0x63])
    (hoob : 15 < GET_R3IMM w) :
    executeInstruction w registers = none := by
  obtain ⟨a, ha⟩ := read_r2 w registers hlen
  have hb : registers[GET_R3IMM w]? = none := List.getElem?_eq_none (by omega)
  simp only [List.mem_cons, List.not_mem_nil, or_false] at hop
  rcases hop with hop | hop | hop | hop <;>
    simp [executeInstruction, hop, ha, hb]

/-- Witness for C3: `ADD R0, R0, R16` (word `0x57000010`, `r3_or_imm = 16`)
on the zeroed register file. -/
theorem oob_register_operand_no_defined_result_w :
    initRegisters.length = 16 ∧
    executeInstruction 0x57000010 initRegisters = none :=
  ⟨by decide, oob_register_operand_no_defined_result 0x57000010 initRegisters
    (by decide) (by decide) (by decide)⟩

/-- `add32` is addition modulo `2^32`. -/
theorem add32_modEq (a b : Nat) :
    (add32 a b : Int) ≡ (a : Int) + (b : Int) [ZMOD 4294967296] := by
  unfold Int.ModEq add32; omega

/-- `sub32` is subtraction modulo `2^32`. -/
theorem sub32_modEq (a b : Nat) :
    (sub32 a b : Int) ≡ (a : Int) - (b : Int) [ZMOD 4294967296] := by
  unfold Int.ModEq sub32; omega

/-- `mul32` is multiplication modulo `2^32`. -/
theorem mul32_modEq (a b : Nat) :
    (mul32 a b : Int) ≡ (a : Int) * (b : Int) [ZMOD 4294967296] := by
  have hcast : ((a * b : Nat) : Int) = (a : Int) * (b : Int) := by push_cast; ring
  unfold Int.ModEq mul32
  rw [← hcast]
  generalize a * b = c
  omega

/-- C7: the execution-engine arithmetic of ADD/ADDi/SUB/SUBi/MUL/MULi is
unsigned 32-bit with wraparound (modulo `2^32`) semantics, and never fails:
whenever the operand reads succeed, each of the six opcodes writes to `r1` a
value below `2^32` that is congruent modulo `2^32` to the exact
sum/difference/product of its operands; in particular `SUBi R0, R0, 1` from
`registers[0] = 0` yields `registers[0] = 0xFFFFFFFF`. -/
theorem arithmetic_wraparound :
    (∀ w registers a, GET_OPCODE w = 0x58 → registers[GET_R2 w]? = some a →
      executeInstruction w registers =
        some (registers.set (GET_R1 w) (add32 a (GET_R3IMM w)), []) ∧
      add32 a (GET_R3IMM w) < 4294967296 ∧
      (add32 a (GET_R3IMM w) : Int) ≡
        (a : Int) + (GET_R3IMM w : Int) [ZMOD 4294967296]) ∧
    (∀ w registers a, GET_OPCODE w = 0x60 → registers[GET_R2 w]? = some a →
      executeInstruction w registers =
        some (registers.set (GET_R1 w) (sub32 a (GET_R3IMM w)), []) ∧
      sub32 a (GET_R3IMM w) < 4294967296 ∧
      (sub32 a (GET_R3IMM w) : Int) ≡
        (a : Int) - (GET_R3IMM w : Int) [ZMOD 4294967296]) ∧
    (∀ w registers a, GET_OPCODE w = 0x62 → registers[GET_R2 w]? = some a →
      executeInstruction w registers =
        some (registers.set (GET_R1 w) (mul32 a (GET_R3IMM w)), []) ∧
      mul32 a (GET_R3IMM w) < 4294967296 ∧
      (mul32 a (GET_R3IMM w) : Int) ≡
        (a : Int) * (GET_R3IMM w : Int) [ZMOD 4294967296]) ∧
    (∀ w registers a b, GET_OPCODE w = 0x57 → registers[GET_R2 w]? = some a →
      registers[GET_R3IMM w]? = some b →
      executeInstruction w registers =
        some (registers.set (GET_R1 w) (add32 a b), []) ∧
      add32 a b < 4294967296 ∧
      (add32 a b : Int) ≡ (a : Int) + (b : Int) [ZMOD 4294967296]) ∧
    (∀ w registers a b, GET_OPCODE w = 0x59 → registers[GET_R2 w]? = some a →
      registers[GET_R3IMM w]? = some b →
      executeInstruction w registers =
        some (registers.set (GET_R1 w) (sub32 a b), []) ∧
      sub32 a b < 4294967296 ∧
      (sub32 a b : Int) ≡ (a : Int) - (b : Int) [ZMOD 4294967296]) ∧
    (∀ w registers a b, GET_OPCODE w = 0x61 → registers[GET_R2 w]? = some a →
      registers[GET_R3IMM w]? = some b →
      executeInstruction w registers =
        some (registers.set (GET_R1 w) (mul32 a b), []) ∧
      mul32 a b < 4294967296 ∧
      (mul32 a b : Int) ≡ (a : Int) * (b : Int) [ZMOD 4294967296]) ∧
    executeInstruction 0x60000001 initRegisters =
      some (initRegisters.set 0 0xFFFFFFFF, []) := by
  refine ⟨?_, ?_, ?_, ?_, ?_, ?_, by decide⟩
  · intro w registers a hop ha
    exact ⟨by simp [executeInstruction, hop, ha],
      Nat.mod_lt _ (by norm_num), add32_modEq a (GET_R3IMM w)⟩
  · intro w registers a hop ha
    exact ⟨by simp [executeInstruction, hop, ha],
      Nat.mod_lt _ (by norm_num), sub32_modEq a (GET_R3IMM w)⟩
  · intro w registers a hop ha
    exact ⟨by simp [executeInstruction, hop, ha],
      Nat.mod_lt _ (by norm_num), mul32_modEq a (GET_R3IMM w)⟩
  · intro w registers a b hop ha hb
    exact ⟨by simp [executeInstruction, hop, ha, hb],
      Nat.mod_lt _ (by norm_num), add32_modEq a b⟩
  · intro w registers a b hop ha hb
    exact ⟨by simp [executeInstruction, hop, ha, hb],
      Nat.mod_lt _ (by norm_num), sub32_modEq a b⟩
  · intro w registers a b hop ha hb
    exact ⟨by simp [executeInstruction, hop, ha, hb],
      Nat.mod_lt _ (by norm_num), mul32_modEq a b⟩

/-- Witness for C7: `SUBi R0, R0, 1` (word `0x60000001`) on the zeroed
register file wraps to `2^32 - 1`. -/
theorem arithmetic_wraparound_w :
    executeInstruction 0x60000001 initRegisters =
      some (initRegisters.set 0 (sub32 0 1), []) ∧
    sub32 0 1 < 4294967296 ∧
    (sub32 0 1 : Int) ≡ (0 : Int) - (1 : Int) [ZMOD 4294967296] :=
  arithmetic_wraparound.2.1 0x60000001 initRegisters 0 (by decide) (by decide)

/-- C8 counterexample: `WRITE R0` (word `0x53000000`) with
`registers[0] = 0x80000000 = 2^31` prints `-2147483648` — the signed
reinterpretation produced by `printf("%d\n", registers[r1])` — and not the
decimal value `2147483648` of the unsigned 32-bit register that the claim
requires. -/
theorem write_unsigned_decimal_cex :
    executeInstruction 0x53000000 (2147483648 :: List.replicate 15 0) =
      some (2147483648 :: List.replicate 15 0, ["-2147483648"]) ∧
    toString (2147483648 : Nat) = "2147483648" ∧
    ("-2147483648" : String) ≠ "2147483648" := by
  decide

/-- C8 as amended: executing `WRITE` (opcode `0x53`) produces exactly one
output line, the decimal rendering of `registers[r1]` reinterpreted as a
signed 32-bit two's-complement integer (`printf` `%d`), and leaves every
register unchanged; for register values below `2^31` this coincides with the
unsigned decimal value. -/
theorem write_semantics (w : Nat) (registers : List Nat) (v : Nat)
    (hop : GET_OPCODE w = 0x53) (hv : registers[GET_R1 w]? = some v) :
    executeInstruction w registers = some (registers, [toString (sint32 v)]) ∧
    (v < 2147483648 → toString (sint32 v) = toString v) := by
  constructor
  · simp [executeInstruction, hop, hv]
  · intro hlt
    have hmod : v % 4294967296 = v := Nat.mod_eq_of_lt (by omega)
    have hs : sint32 v = (v : Int) := by simp [sint32, hmod, hlt]
    rw [hs]
    rfl

/-- Witness for C8 (amended): `WRITE R0` on the zeroed register file prints
`0` and changes nothing. -/
theorem write_semantics_w :
    executeInstruction 0x53000000 initRegisters =
      some (initRegisters, [toString (sint32 0)]) ∧
    (0 < 2147483648 → toString (sint32 0) = toString 0) :=
  write_semantics 0x53000000 initRegisters 0 (by decide) (by decide)

/-- Case analysis on one defined instruction step: either the instruction is
`WRITE` or unrecognized — the register file is untouched and exactly one
line is printed — or it is one of the mutating opcodes — register `r1` is
overwritten with some value and nothing is printed. -/
theorem executeInstruction_shape (w : Nat) (registers registers' : List Nat)
    (out : List String)
    (h : executeInstruction w registers = some (registers', out)) :
    (producesOutput w = true ∧ registers' = registers ∧ out.length = 1) ∨
    (producesOutput w = false ∧ (∃ x, registers' = registers.set (GET_R1 w) x) ∧
      out = []) := by
  by_cases h53 : GET_OPCODE w = 0x53
  · simp [executeInstruction, h53, Option.bind_eq_some] at h
    obtain ⟨v, hv, hr, ho⟩ := h
    exact Or.inl ⟨by unfold producesOutput; rw [h53]; decide, hr.symm,
      by rw [← ho]; rfl⟩
  by_cases h54 : GET_OPCODE w = 0x54
  · simp [executeInstruction, h54, Option.bind_eq_some] at h
    obtain ⟨v, hv, hr, ho⟩ := h
    exact Or.inr ⟨by unfold producesOutput; rw [h54]; decide, ⟨v, hr.symm⟩,
      ho⟩
  by_cases h55 : GET_OPCODE w = 0x55
  · simp [executeInstruction, h55] at h
    obtain ⟨hr, ho⟩ := h
    exact Or.inr ⟨by unfold producesOutput; rw [h55]; decide, ⟨_, hr.symm⟩,
      ho⟩
  by_cases h56 : GET_OPCODE w = 0x56
  · simp [executeInstruction, h56] at h
    obtain ⟨hr, ho⟩ := h
    exact Or.inr ⟨by unfold producesOutput; rw [h56]; decide, ⟨_, hr.symm⟩,
      ho⟩
  by_cases h57 : GET_OPCODE w = 0x57
  · simp [executeInstruction, h57, Option.bind_eq_some] at h
    obtain ⟨a, ha, b, hb, hr, ho⟩ := h
    exact Or.inr ⟨by unfold producesOutput; rw [h57]; decide, ⟨_, hr.symm⟩,
      ho⟩
  by_cases h58 : GET_OPCODE w = 0x58
  · simp [executeInstruction, h58, Option.bind_eq_some] at h
    obtain ⟨a, ha, hr, ho⟩ := h
    exact Or.inr ⟨by unfold producesOutput; rw [h58]; decide, ⟨_, hr.symm⟩,
      ho⟩
  by_cases h59 : GET_OPCODE w = 0x59
  · simp [executeInstruction, h59, Option.bind_eq_some] at h
    obtain ⟨a, ha, b, hb, hr, ho⟩ := h
    exact Or.inr ⟨by unfold producesOutput; rw [h59]; decide, ⟨_, hr.symm⟩,
      ho⟩
  by_cases h60 : GET_OPCODE w = 0x60
  · simp [executeInstruction, h60, Option.bind_eq_some] at h
    obtain ⟨a, ha, hr, ho⟩ := h
    exact Or.inr ⟨by unfold producesOutput; rw [h60]; decide, ⟨_, hr.symm⟩,
      ho⟩
  by_cases h61 : GET_OPCODE w = 0x61
  · simp [executeInstruction, h61, Option.bind_eq_some] at h
    obtain ⟨a, ha, b, hb, hr, ho⟩ := h
    exact Or.inr ⟨by unfold producesOutput; rw [h61]; decide, ⟨_, hr.symm⟩,
      ho⟩
  by_cases h62 : GET_OPCODE w = 0x62
  · simp [executeInstruction, h62, Option.bind_eq_some] at h
    obtain ⟨a, ha, hr, ho⟩ := h
    exact Or.inr ⟨by unfold producesOutput; rw [h62]; decide, ⟨_, hr.symm⟩,
      ho⟩
  by_cases h63 : GET_OPCODE w = 0x63
  · simp [executeInstruction, h63, Option.bind_eq_some] at h
    obtain ⟨a, ha, b, hb, q, hq, hr, ho⟩ := h
    exact Or.inr ⟨by unfold producesOutput; rw [h63]; decide, ⟨_, hr.symm⟩,
      ho⟩
  by_cases h64 : GET_OPCODE w = 0x64
  · simp [executeInstruction, h64, Option.bind_eq_some] at h
    obtain ⟨a, ha, q, hq, hr, ho⟩ := h
    exact Or.inr ⟨by unfold producesOutput; rw [h64]; decide, ⟨_, hr.symm⟩,
      ho⟩
  · simp [executeInstruction, h53, h54, h55, h56, h57, h58, h59, h60, h61,
      h62, h63, h64] at h
    obtain ⟨hr, ho⟩ := h
    refine Or.inl ⟨?_, hr.symm, by rw [← ho]; rfl⟩
    unfold producesOutput
    simp [validOpcodes, h53, h54, h55, h56, h57, h58, h59, h60, h61, h62,
      h63, h64]

/-- C10: one defined instruction step modifies at most the register selected
by `r1`: every other index reads the same afterwards, and `WRITE` (`0x53`)
and unrecognized opcodes leave the whole register file unchanged. -/
theorem frame_effect (w : Nat) (registers registers' : List Nat)
    (out : List String)
    (h : executeInstruction w registers = some (registers', out)) :
    (∀ j, j ≠ GET_R1 w → registers'[j]? = registers[j]?) ∧
    ((GET_OPCODE w = 0x53 ∨ GET_OPCODE w ∉ validOpcodes) →
      registers' = registers) := by
  rcases executeInstruction_shape w registers registers' out h with
    ⟨hp, hr, hlen⟩ | ⟨hp, ⟨x, hr⟩, hout⟩
  · exact ⟨fun j _ => by rw [hr], fun _ => hr⟩
  · refine ⟨fun j hj => ?_, fun hop => ?_⟩
    · rw [hr]
      exact List.getElem?_set_ne (Ne.symm hj)
    · exfalso
      unfold producesOutput at hp
      exact absurd hop (of_decide_eq_false hp)

/-- Witness for C10: `MOVli R1, 5` (word `0x55100005`) on the zeroed register
file writes register 1 and leaves register 0 alone. -/
theorem frame_effect_w :
    executeInstruction 0x55100005 initRegisters =
      some (initRegisters.set 1 5, []) ∧
    (initRegisters.set 1 5)[0]? = initRegisters[0]? :=
  ⟨by decide,
    (frame_effect 0x55100005 initRegisters (initRegisters.set 1 5) []
      (by decide)).1 0 (by decide)⟩

/-- A defined run prints exactly one line per `WRITE`-or-unrecognized
instruction of the program, in program order. -/
theorem runProgram_length (bin : List Nat) :
    ∀ registers regs' lines, runProgram bin registers = some (regs', lines) →
    lines.length = bin.countP producesOutput := by
  induction bin with
  | nil =>
    intro registers regs' lines h
    simp only [runProgram, Option.some.injEq, Prod.mk.injEq] at h
    obtain ⟨h1, h2⟩ := h
    subst h2
    simp
  | cons instr rest ih =>
    intro registers regs' lines h
    rcases hexec : executeInstruction instr registers with - | st1
    · simp [runProgram, hexec] at h
    · simp only [runProgram, hexec, Option.bind_eq_bind, Option.some_bind] at h
      rw [Option.bind_eq_some] at h
      obtain ⟨st2, heq, h⟩ := h
      · simp only [Option.some.injEq, Prod.mk.injEq] at h
        obtain ⟨h3, h4⟩ := h
        subst h4
        rw [List.countP_cons]
        have hlen2 := ih st1.1 st2.1 st2.2 heq
        rcases executeInstruction_shape instr registers st1.1 st1.2 hexec with
          ⟨hp, -, hlen1⟩ | ⟨hp, -, hout⟩
        · simp [List.length_append, hlen1, hlen2, hp, Nat.add_comm]
        · simp [hout, hlen2, hp]

/-- The disassembly loop prints exactly the per-word disassembly, in
program order. -/
theorem printAsmLines_eq_map (bin : List Nat) :
    printAsmLines bin = bin.map decodeInstruction := by
  induction bin with
  | nil => rfl
  | cons w rest ih => simp [printAsmLines, ih]

/-- C9 counterexample: for the one-instruction program `[0x64100000]`
(`DIVi R1, R0, 0` — a recognized opcode that prints nothing), the claim
requires the execution stream `["EXECUTION:", ""]`; the code instead has no
defined execution stream at all (it faults during the division). -/
theorem stream_structure_cex :
    execute [0x64100000] = none ∧
    execute [0x64100000] ≠ some ["EXECUTION:", ""] := by decide

/-- C9 as amended: for every program, the disassembly pass emits the header
`INSTRUCTIONS:`, then exactly one mnemonic line per instruction in program
order, then one blank line; and whenever the execution pass completes
without undefined behavior, it emits the header `EXECUTION:`, then exactly
one output line per instruction whose opcode is `WRITE` or unrecognized (no
line for the other opcodes), then one blank line. -/
theorem stream_structure (bin : List Nat) :
    printAsm bin = "INSTRUCTIONS:" :: bin.map decodeInstruction ++ [""] ∧
    ∀ ls, execLines bin = some ls →
      execute bin = some ("EXECUTION:" :: ls ++ [""]) ∧
      ls.length = bin.countP producesOutput := by
  refine ⟨by simp [printAsm, printAsmLines_eq_map],
    fun ls h => ⟨by simp [execute, h], ?_⟩⟩
  obtain ⟨⟨regs', lines⟩, hrun, hsnd⟩ := Option.map_eq_some'.mp h
  subst hsnd
  exact runProgram_length bin initRegisters regs' lines hrun

/-- Witness for C9 (amended): the one-instruction program `[0x53000000]`
(`WRITE R0`): header, one line, blank line. -/
theorem stream_structure_w :
    execute [0x53000000] = some ("EXECUTION:" :: ["0"] ++ [""]) ∧
    (["0"] : List String).length = List.countP producesOutput [0x53000000] :=
  (stream_structure [0x53000000]).2 ["0"] (by decide)

end Cpu
